import Mathlib

/-!
Shallow embedding of the mobilier-be backend: the user routes
(src/unnamed/part_000), the IdNotFoundException type
(src/src/exceptions/idNotFound.exception.ts) and the furniture service
(src/src/furniture/service/furniture.services.ts).

HTTP route handlers are embedded as pure functions from the request data,
the caller's token payload and the service operations (passed in as
functions) to an observable outcome together with the list of service
calls the handler made.  The request framework's version-4 semantics are
modelled for async handlers: an error thrown outside a try/catch escapes
the handler instead of reaching the error channel `next`.
-/

namespace Mobilier

/-! Status codes of the `HttpStatus` enum.  The enum's file is not under
src/; the values are modelled from the spec, which names the standard
codes used by the routes (200 OK, 201 Created, 204 No Content) and the
404 mapping of the id-not-found exception. -/

def HttpStatus.OK : Nat := 200

def HttpStatus.CREATED : Nat := 201

def HttpStatus.NO_CONTENT : Nat := 204

def HttpStatus.NOT_FOUND : Nat := 404

/-- Modelled from the spec: the `HttpExceptions` base class (its file is
not under src/), a typed exception carrying an HTTP status and a
message, per the spec's description of typed exceptions mapping to HTTP
status codes. -/
structure HttpExceptions where
  status : Nat
  message : String
deriving DecidableEq

/-- Embeds src/src/exceptions/idNotFound.exception.ts: the constructor
takes a message (defaulted to the empty string at call sites that omit
it) and passes `HttpStatus.NOT_FOUND` together with the message to the
base class. -/
def IdNotFoundException (message : String) : HttpExceptions :=
  { status := HttpStatus.NOT_FOUND, message := message }

/-! Roles of the `Roles` enum.  The enum's file is not under src/; the
tags are modelled from the spec's glossary, which lists the
access-control tags USER and ADMIN checked against an allow-list per
endpoint.  A role is a string so that payloads carrying any other tag
can be expressed. -/

def Roles.USER : String := "USER"

def Roles.ADMIN : String := "ADMIN"

/-- The verified token payload stored in `res.locals.payload` by the
token middlewares; the role checks read its role tag. -/
structure Payload where
  role : String
deriving DecidableEq

/-- Errors that can be thrown during request handling: the error thrown
by the role check, a typed HTTP exception from a lower layer, or any
other thrown value identified by a tag. -/
inductive Err where
  | forbidden
  | httpExc (e : HttpExceptions)
  | other (tag : String)
deriving DecidableEq

/-- Modelled from the spec: the `validRole` middleware helper (its file
is not under src/).  The spec describes it as checking role membership
against a small allow-list and rejecting disallowed callers; it throws
unless the payload's role is in the admitted list. -/
def validRole (admittedRoles : List String) (payload : Payload) : Except Err Unit :=
  if payload.role ∈ admittedRoles then .ok () else .error .forbidden

/-- The pagination record built by the list route from the `page` and
`size` query parameters (src/../interfaces/pagination.interfaces). -/
structure Pagination where
  page : Int
  size : Int
deriving DecidableEq

/-! JavaScript value coercions used by the list route.  `Option` models
a possibly-absent query parameter; a `none` result of `jsNumber` models
NaN. -/

/-- The numeric value of a list of decimal digits. -/
def digitsVal (l : List Char) : Nat :=
  l.foldl (fun acc c => acc * 10 + (c.toNat - 48)) 0

/-- JavaScript coercion `Number(x)` for `x` an optional query-parameter
string, on the integer-literal fragment the routes receive: an absent
parameter (undefined) coerces to NaN (`none`), the empty string to 0, a
possibly sign-prefixed run of decimal digits to its value, and any other
string to NaN. -/
def jsNumber : Option String → Option Int
  | none => none
  | some s =>
    match s.toList with
    | [] => some 0
    | '-' :: rest =>
      if !rest.isEmpty && rest.all Char.isDigit then
        some (-(digitsVal rest : Int))
      else none
    | cs =>
      if cs.all Char.isDigit then some (digitsVal cs) else none

/-- JavaScript `x || d` for `x` a number or NaN: `x` is falsy exactly
when it is NaN or 0, and then the default is taken. -/
def jsOrNum (x : Option Int) (d : Int) : Int :=
  match x with
  | none => d
  | some n => if n = 0 then d else n

/-- JavaScript `x || d` for `x` an optional string: undefined and the
empty string are falsy. -/
def jsOrStr (x : Option String) (d : String) : String :=
  match x with
  | none => d
  | some s => if s = "" then d else s

/-- Whether a character is a hexadecimal digit. -/
def isHexChar (c : Char) : Bool :=
  c.isDigit || ('a' ≤ c && c ≤ 'f') || ('A' ≤ c && c ≤ 'F')

/-- The `isMongoId` validator applied by the `check("id").isMongoId()`
middleware chains: a 24-character hexadecimal string. -/
def isMongoId (s : String) : Bool :=
  s.length == 24 && s.toList.all isHexChar

/-! The furniture service (src/src/furniture/service/furniture.services.ts).
`φ` is the furniture entity type and `ρ` the data-store result type; both
live outside src/, so the service is polymorphic in them. -/

variable {φ ρ : Type}

/-- Modelled from the spec: the `FurnitureRepository` class (its file is
not under src/) as the record of the five data-store operations the
service delegates to; the spec describes the repository layer as plain
persistence operations. -/
structure FurnitureRepository (φ ρ : Type) where
  getAllFurnitures : Pagination → String → ρ
  getAFurnitureById : String → ρ
  addAFurniture : φ → ρ
  modifyAFurnitureById : String → Int → Int → ρ
  deleteAFurnitureById : String → ρ

/-- The `FurnitureService` instance data: the constructor stores the
repository singleton in the `repository` field. -/
structure FurnitureService (φ ρ : Type) where
  repository : FurnitureRepository φ ρ

/-- Embeds `FurnitureService.getAllFurnitures`: returns
`this.repository.getAllFurnitures(pagination, sorting)`. -/
def FurnitureService.getAllFurnitures (s : FurnitureService φ ρ)
    (pagination : Pagination) (sorting : String) : ρ :=
  s.repository.getAllFurnitures pagination sorting

/-- Embeds `FurnitureService.getAFurnitureById`: returns
`this.repository.getAFurnitureById(id)`. -/
def FurnitureService.getAFurnitureById (s : FurnitureService φ ρ) (id : String) : ρ :=
  s.repository.getAFurnitureById id

/-- Embeds `FurnitureService.addAFurniture`: returns
`this.repository.addAFurniture(furniture)`. -/
def FurnitureService.addAFurniture (s : FurnitureService φ ρ) (furniture : φ) : ρ :=
  s.repository.addAFurniture furniture

/-- Embeds `FurnitureService.modifyAFurnitureById`: returns
`this.repository.modifyAFurnitureById(id, cost, stock)`. -/
def FurnitureService.modifyAFurnitureById (s : FurnitureService φ ρ)
    (id : String) (cost stock : Int) : ρ :=
  s.repository.modifyAFurnitureById id cost stock

/-- Embeds `FurnitureService.deleteAFurnitureById`: returns
`this.repository.deleteAFurnitureById(id)`. -/
def FurnitureService.deleteAFurnitureById (s : FurnitureService φ ρ) (id : String) : ρ :=
  s.repository.deleteAFurnitureById id

/-- The static singleton fields of the furniture repository and service
classes, made explicit as state threaded through `getInstance` calls. -/
structure SingletonState (φ ρ : Type) where
  repoInstance : Option (FurnitureRepository φ ρ)
  serviceInstance : Option (FurnitureService φ ρ)

/-- Modelled from the spec: `FurnitureRepository.getInstance` (its file
is not under src/), the lazily-constructed singleton accessor the spec
attributes to every repository class.  `newRepo` is the repository value
its constructor would build on first use. -/
def FurnitureRepository.getInstance (newRepo : FurnitureRepository φ ρ)
    (st : Option (FurnitureRepository φ ρ)) :
    FurnitureRepository φ ρ × Option (FurnitureRepository φ ρ) :=
  match st with
  | none => (newRepo, some newRepo)
  | some inst => (inst, some inst)

/-- Embeds `FurnitureService.getInstance` with the static fields as
explicit state: if no service instance is stored, run the constructor
(which fetches the repository singleton) and store the new instance;
otherwise return the stored instance unchanged. -/
def FurnitureService.getInstance (newRepo : FurnitureRepository φ ρ)
    (st : SingletonState φ ρ) : FurnitureService φ ρ × SingletonState φ ρ :=
  match st.serviceInstance with
  | some inst => (inst, st)
  | none =>
    match FurnitureRepository.getInstance newRepo st.repoInstance with
    | (repo, repoSt) =>
      ({ repository := repo },
       { repoInstance := repoSt, serviceInstance := some { repository := repo } })

/-! The user routes (src/unnamed/part_000).  Each handler is a pure
function of the request pieces it reads, the token payload and the
service operation it calls (passed as a function returning
`Except Err`, modelling a promise that either resolves or rejects);
the result pairs the observable outcome with the list of service calls
made, so that "the store was never invoked" is expressible. -/

/-- The observable outcome of a request handler: a response with an HTTP
status and a JSON body, an error passed to the error channel `next`, or
an error that escaped the handler uncaught. -/
inductive Outcome (β : Type) where
  | respond (status : Nat) (body : β)
  | nextErr (e : Err)
  | escaped (e : Err)
deriving DecidableEq

/-- Whether an outcome is an error passed to `next`. -/
def Outcome.isNextErr {β : Type} : Outcome β → Bool
  | .nextErr _ => true
  | _ => false

/-- Whether an outcome is an error that escaped the handler. -/
def Outcome.isEscaped {β : Type} : Outcome β → Bool
  | .escaped _ => true
  | _ => false

/-- The JSON bodies the user routes send: the single-key objects
written `{users}`, `{user}`, `{result}` and `{modifiedUser}` in the
source, and the empty body of `res.send()`. -/
inductive UserRouteBody (α : Type) where
  | users (v : α)
  | user (v : α)
  | result (v : α)
  | modifiedUser (v : α)
  | empty
deriving DecidableEq

/-- The result of a route whose middleware chain validates fields before
the handler runs.  Modelled from the spec: the shared `fieldsValidator`
middleware (its file is not under src/) surfaces validation failures as
422-class responses, ending the request before the handler. -/
inductive RouteResult (β : Type) where
  | handled (o : Outcome β)
  | validationFailed (message : String)
deriving DecidableEq

/-- The query parameters the list route reads. -/
structure ListQuery where
  page : Option String
  size : Option String
  sort_by : Option String
deriving DecidableEq

/-- The pagination the `GET /` handler builds:
`Number(req.query.page) || 0` and `Number(req.query.size) || 5`. -/
def requestPagination (q : ListQuery) : Pagination :=
  { page := jsOrNum (jsNumber q.page) 0, size := jsOrNum (jsNumber q.size) 5 }

/-- The sorting string the `GET /` handler builds:
`req.query.sort_by || "+name"`. -/
def requestSorting (q : ListQuery) : String :=
  jsOrStr q.sort_by "+name"

/-- The arguments of one `service.getAllUsers` call. -/
structure GetAllUsersCall where
  pagination : Pagination
  sorting : String
deriving DecidableEq

/-- Embeds the `router.get("/")` handler: builds pagination and sorting
from the query with defaults, checks the `[Roles.ADMIN]` allow-list,
calls `service.getAllUsers(pagination, sorting)` and responds 200 with
`{users}`; any error thrown inside the try block is passed to `next`. -/
def getUsersHandler {α : Type} (q : ListQuery) (payload : Payload)
    (getAllUsers : Pagination → String → Except Err α) :
    Outcome (UserRouteBody α) × List GetAllUsersCall :=
  match validRole [Roles.ADMIN] payload with
  | .error e => (.nextErr e, [])
  | .ok _ =>
    match getAllUsers (requestPagination q) (requestSorting q) with
    | .ok users =>
        (.respond HttpStatus.OK (.users users),
         [{ pagination := requestPagination q, sorting := requestSorting q }])
    | .error e =>
        (.nextErr e,
         [{ pagination := requestPagination q, sorting := requestSorting q }])

/-- Embeds the `router.get("/:id")` handler body: checks the
`[Roles.USER, Roles.ADMIN]` allow-list, calls `service.getAUserById(id)`
and responds 200 with `{user}`; any error thrown inside the try block is
passed to `next`. -/
def getUserByIdHandler {α : Type} (id : String) (payload : Payload)
    (getAUserById : String → Except Err α) :
    Outcome (UserRouteBody α) × List String :=
  match validRole [Roles.USER, Roles.ADMIN] payload with
  | .error e => (.nextErr e, [])
  | .ok _ =>
    match getAUserById id with
    | .ok u => (.respond HttpStatus.OK (.user u), [id])
    | .error e => (.nextErr e, [id])

/-- Embeds the `router.get("/:id")` route: the middleware chain runs
`check("id").isMongoId()`, the token middlewares and `fieldsValidator`
before the handler, so an id that is not a Mongo id ends the request
with a validation failure and the handler never runs (the token
middlewares, which produce the payload, are outside src/ and are
modelled as having supplied the payload). -/
def getUserByIdRoute {α : Type} (id : String) (payload : Payload)
    (getAUserById : String → Except Err α) :
    RouteResult (UserRouteBody α) × List String :=
  if isMongoId id then
    (.handled (getUserByIdHandler id payload getAUserById).1,
     (getUserByIdHandler id payload getAUserById).2)
  else (.validationFailed "it is not a valid id", [])

/-- An address record as destructured by the user routes (country,
state, street, city, room number, each possibly absent). -/
structure Address where
  country : Option String
  state : Option String
  street : Option String
  city : Option String
  roomNumber : Option String
deriving DecidableEq

/-- The request body of `POST /login` as destructured by its handler. -/
structure LoginBody where
  email : Option String
  password : Option String
deriving DecidableEq

/-- Embeds the `router.post("/login")` handler body: calls
`service.getAUserByEmail(email, password)` and responds 200 with
`{result}`; any error thrown inside the try block is passed to
`next`. -/
def loginHandler {α : Type} (body : LoginBody)
    (getAUserByEmail : Option String → Option String → Except Err α) :
    Outcome (UserRouteBody α) × List (Option String × Option String) :=
  match getAUserByEmail body.email body.password with
  | .ok r => (.respond 200 (.result r), [(body.email, body.password)])
  | .error e => (.nextErr e, [(body.email, body.password)])

/-- The request body of `POST /` as destructured by its handler: the
user fields and the nested address array. -/
structure PostUserBody where
  firstName : Option String
  lastName : Option String
  email : Option String
  password : Option String
  phone : Option String
  role : Option String
  address : List Address
deriving DecidableEq

/-- The `User` object the `POST /` handler builds: the destructured
fields plus a one-element address array rebuilt from the first address
of the body. -/
structure User where
  firstName : Option String
  lastName : Option String
  email : Option String
  password : Option String
  phone : Option String
  role : Option String
  address : List Address
deriving DecidableEq

/-- Embeds the `router.post("/")` handler.  It destructures
`address: [{country, state, street, city, roomNumber}]` (throwing a
TypeError when the address array is empty), builds the user, calls
`service.addAUser(user)` and responds 201 with `{result}`.  This handler
has no try/catch, so a thrown error escapes the async handler instead of
being passed to `next`. -/
def postUserHandler {α : Type} (body : PostUserBody)
    (addAUser : User → Except Err α) :
    Outcome (UserRouteBody α) × List User :=
  match body.address with
  | [] => (.escaped (.other "TypeError"), [])
  | a :: _ =>
    let user : User :=
      { firstName := body.firstName, lastName := body.lastName,
        email := body.email, password := body.password, phone := body.phone,
        role := body.role,
        address := [{ country := a.country, state := a.state,
                      street := a.street, city := a.city,
                      roomNumber := a.roomNumber }] }
    match addAUser user with
    | .ok r => (.respond HttpStatus.CREATED (.result r), [user])
    | .error e => (.escaped e, [user])

/-- Embeds the `router.put("/address/:id")` handler body: checks the
`[Roles.USER]` allow-list, builds the address from the body, calls
`service.addAnUserAddress(id, address)` and responds 200 with
`{result}`; any error thrown inside the try block is passed to
`next`. -/
def putAddressHandler {α : Type} (id : String) (body : Address) (payload : Payload)
    (addAnUserAddress : String → Address → Except Err α) :
    Outcome (UserRouteBody α) × List (String × Address) :=
  match validRole [Roles.USER] payload with
  | .error e => (.nextErr e, [])
  | .ok _ =>
    let address : Address :=
      { country := body.country, state := body.state, street := body.street,
        city := body.city, roomNumber := body.roomNumber }
    match addAnUserAddress id address with
    | .ok r => (.respond HttpStatus.OK (.result r), [(id, address)])
    | .error e => (.nextErr e, [(id, address)])

/-- Whether an optional string field is present and non-empty, as the
`check(field).not().isEmpty()` validations require. -/
def notEmptyOpt : Option String → Bool
  | none => false
  | some s => !(s == "")

/-- Embeds the `router.put("/address/:id")` route: the middleware chain
validates the id format and the presence of country, state, street and
city before the handler runs (the validation outcome follows the
`fieldsValidator` model). -/
def putAddressRoute {α : Type} (id : String) (body : Address) (payload : Payload)
    (addAnUserAddress : String → Address → Except Err α) :
    RouteResult (UserRouteBody α) × List (String × Address) :=
  if !(isMongoId id) then (.validationFailed "it is not a valid id", [])
  else if !(notEmptyOpt body.country) then (.validationFailed "The country is required", [])
  else if !(notEmptyOpt body.state) then (.validationFailed "The state is required", [])
  else if !(notEmptyOpt body.street) then (.validationFailed "The street is required", [])
  else if !(notEmptyOpt body.city) then (.validationFailed "The city is required", [])
  else
    (.handled (putAddressHandler id body payload addAnUserAddress).1,
     (putAddressHandler id body payload addAnUserAddress).2)

/-- The request body of `PUT /:id` as far as the handler and the claims
read it: the destructured fields firstName, lastName, password and
phone, and the email and role fields the body may also carry. -/
structure UserBody where
  firstName : Option String
  lastName : Option String
  email : Option String
  password : Option String
  phone : Option String
  role : Option String
deriving DecidableEq

/-- The update object the `PUT /:id` handler builds: exactly the
firstName, lastName, password and phone fields of the body (the built
object has no email and no role key). -/
structure UpdateUser where
  firstName : Option String
  lastName : Option String
  password : Option String
  phone : Option String
deriving DecidableEq

/-- The update object built by `const user: User = { firstName,
lastName, password, phone }` in the `PUT /:id` handler. -/
def putUserUpdate (body : UserBody) : UpdateUser :=
  { firstName := body.firstName, lastName := body.lastName,
    password := body.password, phone := body.phone }

/-- Embeds the `router.put("/:id")` handler body: builds the update
object from the body, checks the `[Roles.USER]` allow-list, calls
`service.modifyAUserById(id, user)` and responds 200 with
`{modifiedUser}`; any error thrown inside the try block is passed to
`next`. -/
def putUserHandler {α : Type} (id : String) (body : UserBody) (payload : Payload)
    (modifyAUserById : String → UpdateUser → Except Err α) :
    Outcome (UserRouteBody α) × List (String × UpdateUser) :=
  match validRole [Roles.USER] payload with
  | .error e => (.nextErr e, [])
  | .ok _ =>
    match modifyAUserById id (putUserUpdate body) with
    | .ok m => (.respond HttpStatus.OK (.modifiedUser m), [(id, putUserUpdate body)])
    | .error e => (.nextErr e, [(id, putUserUpdate body)])

/-- Embeds the `router.put("/:id")` route: the middleware chain runs
`check("id").isMongoId()`, `passwordExists` and `fieldsValidator` before
the handler.  Modelled from the spec: the `passwordExists` middleware
(its file is not under src/) requires, per its name, a present password
in the body. -/
def putUserRoute {α : Type} (id : String) (body : UserBody) (payload : Payload)
    (modifyAUserById : String → UpdateUser → Except Err α) :
    RouteResult (UserRouteBody α) × List (String × UpdateUser) :=
  if !(isMongoId id) then (.validationFailed "it is not a valid id", [])
  else if !(body.password).isSome then (.validationFailed "The password is required", [])
  else
    (.handled (putUserHandler id body payload modifyAUserById).1,
     (putUserHandler id body payload modifyAUserById).2)

/-- Embeds the `router.delete("/:id")` handler body: checks the
`[Roles.USER, Roles.ADMIN]` allow-list, calls
`service.deleteAUserById(id)` and responds 204 with no body; any error
thrown inside the try block is passed to `next`. -/
def deleteUserHandler {α : Type} (id : String) (payload : Payload)
    (deleteAUserById : String → Except Err α) :
    Outcome (UserRouteBody α) × List String :=
  match validRole [Roles.USER, Roles.ADMIN] payload with
  | .error e => (.nextErr e, [])
  | .ok _ =>
    match deleteAUserById id with
    | .ok _ => (.respond HttpStatus.NO_CONTENT .empty, [id])
    | .error e => (.nextErr e, [id])

/-- Embeds the `router.delete("/:id")` route: the middleware chain runs
`check("id").isMongoId()` and `fieldsValidator` before the handler. -/
def deleteUserRoute {α : Type} (id : String) (payload : Payload)
    (deleteAUserById : String → Except Err α) :
    RouteResult (UserRouteBody α) × List String :=
  if isMongoId id then
    (.handled (deleteUserHandler id payload deleteAUserById).1,
     (deleteUserHandler id payload deleteAUserById).2)
  else (.validationFailed "it is not a valid id", [])

/-! Theorems. -/

/-- C5: every IdNotFoundException, for any message string (the default
call `new IdNotFoundException()` being the case of the empty string),
carries HTTP status NOT_FOUND, which is 404. -/
theorem C5_idNotFoundException_status (message : String) :
    (IdNotFoundException message).status = HttpStatus.NOT_FOUND ∧
    (IdNotFoundException message).status = 404 :=
  ⟨rfl, rfl⟩

/-- C7: every FurnitureService method is extensionally equal to the
corresponding FurnitureRepository method at the same arguments, for any
service instance and any inputs. -/
theorem C7_furnitureService_forwards {φ ρ : Type} (s : FurnitureService φ ρ)
    (pagination : Pagination) (sorting : String) (id : String)
    (furniture : φ) (cost stock : Int) :
    s.getAllFurnitures pagination sorting = s.repository.getAllFurnitures pagination sorting ∧
    s.getAFurnitureById id = s.repository.getAFurnitureById id ∧
    s.addAFurniture furniture = s.repository.addAFurniture furniture ∧
    s.modifyAFurnitureById id cost stock = s.repository.modifyAFurnitureById id cost stock ∧
    s.deleteAFurnitureById id = s.repository.deleteAFurnitureById id :=
  ⟨rfl, rfl, rfl, rfl, rfl⟩

/-- C8: FurnitureService.getInstance is a lazily-constructed singleton
accessor: calling it again on the state left by any call returns the
identical instance and leaves the state unchanged (so any two calls in
any order agree), and from a state with no stored service instance the
first call stores exactly the instance it returns. -/
theorem C8_getInstance_singleton {φ ρ : Type} (newRepo : FurnitureRepository φ ρ)
    (st : SingletonState φ ρ) :
    (FurnitureService.getInstance newRepo (FurnitureService.getInstance newRepo st).2).1
      = (FurnitureService.getInstance newRepo st).1 ∧
    (FurnitureService.getInstance newRepo (FurnitureService.getInstance newRepo st).2).2
      = (FurnitureService.getInstance newRepo st).2 ∧
    (st.serviceInstance = none →
      (FurnitureService.getInstance newRepo st).2.serviceInstance
        = some (FurnitureService.getInstance newRepo st).1) := by
  obtain ⟨ri, si⟩ := st
  cases si with
  | some inst => exact ⟨rfl, rfl, fun h => by cases h⟩
  | none =>
    cases ri with
    | none => exact ⟨rfl, rfl, fun _ => rfl⟩
    | some r => exact ⟨rfl, rfl, fun _ => rfl⟩

/-- Witness for C8 at a concrete repository over unit types and the
fresh state with no stored instances. -/
theorem C8_getInstance_singleton_witness :
    (FurnitureService.getInstance
        { getAllFurnitures := fun _ _ => (), getAFurnitureById := fun _ => (),
          addAFurniture := fun (_ : Unit) => (), modifyAFurnitureById := fun _ _ _ => (),
          deleteAFurnitureById := fun _ => () }
        { repoInstance := none, serviceInstance := none }).2.serviceInstance
      = some (FurnitureService.getInstance
        { getAllFurnitures := fun _ _ => (), getAFurnitureById := fun _ => (),
          addAFurniture := fun (_ : Unit) => (), modifyAFurnitureById := fun _ _ _ => (),
          deleteAFurnitureById := fun _ => () }
        { repoInstance := none, serviceInstance := none }).1 :=
  (C8_getInstance_singleton _ _).2.2 rfl

/-- C2: for every GET / request, an ADMIN payload makes the handler call
the list operation with the request's pagination and sorting and respond
200 with the body holding the users (or pass a thrown service error to
`next`); a payload whose role is not ADMIN is rejected by the role check
before the service is invoked and the error goes to the error
channel. -/
theorem C2_getUsers_handler {α : Type} (q : ListQuery) (payload : Payload)
    (getAllUsers : Pagination → String → Except Err α) :
    (payload.role = Roles.ADMIN →
      (∀ us, getAllUsers (requestPagination q) (requestSorting q) = .ok us →
        getUsersHandler q payload getAllUsers
          = (.respond HttpStatus.OK (.users us),
             [{ pagination := requestPagination q, sorting := requestSorting q }])) ∧
      (∀ e, getAllUsers (requestPagination q) (requestSorting q) = .error e →
        getUsersHandler q payload getAllUsers
          = (.nextErr e,
             [{ pagination := requestPagination q, sorting := requestSorting q }]))) ∧
    (payload.role ≠ Roles.ADMIN →
      getUsersHandler q payload getAllUsers = (.nextErr .forbidden, [])) := by
  refine ⟨fun hrole => ⟨fun us hus => ?_, fun e he => ?_⟩, fun hrole => ?_⟩
  · simp [getUsersHandler, validRole, hrole, hus]
  · simp [getUsersHandler, validRole, hrole, he]
  · simp [getUsersHandler, validRole, hrole]

/-- Witness for C2 at a concrete empty query, an ADMIN payload and a
service resolving to a concrete user list. -/
theorem C2_getUsers_handler_witness :
    getUsersHandler { page := none, size := none, sort_by := none }
        { role := "ADMIN" } (fun _ _ => (.ok "all" : Except Err String))
      = (.respond HttpStatus.OK (.users "all"),
         [{ pagination := requestPagination { page := none, size := none, sort_by := none },
            sorting := requestSorting { page := none, size := none, sort_by := none } }]) :=
  ((C2_getUsers_handler _ _ _).1 rfl).1 "all" rfl

/-- C3: for every GET /:id request whose id passes the Mongo-id check, a
USER or ADMIN payload makes the handler fetch the user by that id and
respond 200 with the body holding the user; a payload with any other
role is rejected by the role check before the service call. -/
theorem C3_getUserById_route {α : Type} (id : String) (payload : Payload)
    (getAUserById : String → Except Err α) (hid : isMongoId id = true) :
    ((payload.role = Roles.USER ∨ payload.role = Roles.ADMIN) →
      ∀ u, getAUserById id = .ok u →
        getUserByIdRoute id payload getAUserById
          = (.handled (.respond HttpStatus.OK (.user u)), [id])) ∧
    (payload.role ≠ Roles.USER → payload.role ≠ Roles.ADMIN →
      getUserByIdRoute id payload getAUserById
        = (.handled (.nextErr .forbidden), [])) := by
  constructor
  · rintro (h | h) u hu <;>
      simp [getUserByIdRoute, getUserByIdHandler, validRole, hid, h, hu]
  · intro h1 h2
    simp [getUserByIdRoute, getUserByIdHandler, validRole, hid, h1, h2]

/-- Witness for C3 at a concrete valid Mongo id, a USER payload and a
service resolving to a concrete user. -/
theorem C3_getUserById_route_witness :
    getUserByIdRoute "aaaaaaaaaaaaaaaaaaaaaaaa" { role := "USER" }
        (fun _ => (.ok "u" : Except Err String))
      = (.handled (.respond HttpStatus.OK (.user "u")), ["aaaaaaaaaaaaaaaaaaaaaaaa"]) :=
  ((C3_getUserById_route _ _ _ (by decide)).1 (Or.inl rfl)) "u" rfl

/-- C4: for every request to one of the four :id routes whose id is not
a valid Mongo-style id, the field validation ends the request with a
validation failure and the route's service call trace is empty: the
store is never invoked. -/
theorem C4_invalid_id_blocks_store {α : Type} (id : String) (hid : isMongoId id = false)
    (payload : Payload) (body : UserBody) (addr : Address)
    (svcGet : String → Except Err α) (svcPut : String → UpdateUser → Except Err α)
    (svcAddr : String → Address → Except Err α) (svcDel : String → Except Err α) :
    getUserByIdRoute id payload svcGet = (.validationFailed "it is not a valid id", []) ∧
    putUserRoute id body payload svcPut = (.validationFailed "it is not a valid id", []) ∧
    putAddressRoute id addr payload svcAddr = (.validationFailed "it is not a valid id", []) ∧
    deleteUserRoute id payload svcDel = (.validationFailed "it is not a valid id", []) := by
  refine ⟨?_, ?_, ?_, ?_⟩
  · simp [getUserByIdRoute, hid]
  · simp [putUserRoute, hid]
  · simp [putAddressRoute, hid]
  · simp [deleteUserRoute, hid]

/-- Witness for C4 at the concrete invalid id "zz". -/
theorem C4_invalid_id_blocks_store_witness :
    getUserByIdRoute "zz" { role := "USER" } (fun _ => (.ok () : Except Err Unit))
      = (.validationFailed "it is not a valid id", []) :=
  (C4_invalid_id_blocks_store "zz" (by decide) { role := "USER" }
      { firstName := none, lastName := none, email := none, password := none,
        phone := none, role := none }
      { country := none, state := none, street := none, city := none, roomNumber := none }
      (fun _ => (.ok () : Except Err Unit)) (fun _ _ => .ok ()) (fun _ _ => .ok ())
      (fun _ => .ok ())).1

/-- C6: for every PUT /:id request with a valid Mongo id and a present
password, the role check admits exactly the USER role (in particular
ADMIN is rejected); with a USER payload the handler calls the
modify-user operation and responds 200 with the body holding the
modified user. -/
theorem C6_putUser_route {α : Type} (id : String) (body : UserBody) (payload : Payload)
    (modifyAUserById : String → UpdateUser → Except Err α)
    (hid : isMongoId id = true) (hpw : (body.password).isSome = true) :
    (validRole [Roles.USER] payload = .ok () ↔ payload.role = Roles.USER) ∧
    (payload.role = Roles.USER →
      ∀ m, modifyAUserById id (putUserUpdate body) = .ok m →
        putUserRoute id body payload modifyAUserById
          = (.handled (.respond HttpStatus.OK (.modifiedUser m)),
             [(id, putUserUpdate body)])) ∧
    (payload.role = Roles.ADMIN →
      putUserRoute id body payload modifyAUserById
        = (.handled (.nextErr .forbidden), [])) := by
  refine ⟨?_, fun hrole m hm => ?_, fun hrole => ?_⟩
  · by_cases h : payload.role = Roles.USER <;> simp [validRole, h]
  · simp [putUserRoute, putUserHandler, validRole, hid, hpw, hrole, hm]
  · simp [putUserRoute, putUserHandler, validRole, hid, hpw, hrole, Roles.ADMIN, Roles.USER]

/-- Witness for C6 at a concrete valid id, a body with a present
password, a USER payload and a service resolving to a concrete modified
user. -/
theorem C6_putUser_route_witness :
    putUserRoute "aaaaaaaaaaaaaaaaaaaaaaaa"
        { firstName := some "A", lastName := some "B", email := none,
          password := some "secret123", phone := none, role := none }
        { role := "USER" } (fun _ _ => (.ok "m" : Except Err String))
      = (.handled (.respond HttpStatus.OK (.modifiedUser "m")),
         [("aaaaaaaaaaaaaaaaaaaaaaaa",
           putUserUpdate { firstName := some "A", lastName := some "B", email := none,
                           password := some "secret123", phone := none, role := none })]) :=
  (C6_putUser_route "aaaaaaaaaaaaaaaaaaaaaaaa"
      { firstName := some "A", lastName := some "B", email := none,
        password := some "secret123", phone := none, role := none }
      { role := "USER" } (fun _ _ => (.ok "m" : Except Err String))
      (by decide) rfl).2.1 rfl "m" rfl

/-- C9: in the GET / handler the pagination defaults to page 0 and size
5 when the page or size parameter is absent or not a number, the sorting
defaults to "+name" when sort_by is absent, an explicit page=0 or
size=0 is also replaced by these defaults because 0 is falsy, and with
an ADMIN payload exactly this pagination and sorting are what the
handler passes to the service. -/
theorem C9_list_defaults :
    (∀ q : ListQuery, jsNumber q.page = none → (requestPagination q).page = 0) ∧
    (∀ q : ListQuery, jsNumber q.size = none → (requestPagination q).size = 5) ∧
    (∀ q : ListQuery, q.page = some "0" → (requestPagination q).page = 0) ∧
    (∀ q : ListQuery, q.size = some "0" → (requestPagination q).size = 5) ∧
    (∀ q : ListQuery, q.sort_by = none → requestSorting q = "+name") ∧
    (∀ (α : Type) (q : ListQuery) (payload : Payload)
       (getAllUsers : Pagination → String → Except Err α),
       payload.role = Roles.ADMIN →
       (getUsersHandler q payload getAllUsers).2
         = [{ pagination := requestPagination q, sorting := requestSorting q }]) := by
  have h0 : jsNumber (some "0") = some 0 := by decide
  refine ⟨fun q h => ?_, fun q h => ?_, fun q h => ?_, fun q h => ?_, fun q h => ?_, ?_⟩
  · simp [requestPagination, h, jsOrNum]
  · simp [requestPagination, h, jsOrNum]
  · simp [requestPagination, h, h0, jsOrNum]
  · simp [requestPagination, h, h0, jsOrNum]
  · simp [requestSorting, h, jsOrStr]
  · intro α q payload getAllUsers hrole
    cases hs : getAllUsers (requestPagination q) (requestSorting q) with
    | ok u => simp [getUsersHandler, validRole, hrole, hs]
    | error e => simp [getUsersHandler, validRole, hrole, hs]

/-- Witness for C9 at the concrete query with all parameters absent. -/
theorem C9_list_defaults_witness :
    (requestPagination { page := none, size := none, sort_by := none }).page = 0 :=
  C9_list_defaults.1 { page := none, size := none, sort_by := none } rfl

/-- C10: in the PUT /:id route the object passed to the modify-user
operation is always the update record holding exactly the firstName,
lastName, password and phone fields of the request body (a record with
no email and no role key), and changing the body's email or role fields
changes nothing about the route's behaviour. -/
theorem C10_putUser_frame {α : Type} (id : String) (body : UserBody) (payload : Payload)
    (modifyAUserById : String → UpdateUser → Except Err α) :
    (putUserUpdate body
      = { firstName := body.firstName, lastName := body.lastName,
          password := body.password, phone := body.phone }) ∧
    ((putUserRoute id body payload modifyAUserById).2 = [] ∨
     (putUserRoute id body payload modifyAUserById).2 = [(id, putUserUpdate body)]) ∧
    (∀ em rl,
      putUserRoute id { body with email := em, role := rl } payload modifyAUserById
        = putUserRoute id body payload modifyAUserById) := by
  refine ⟨rfl, ?_, fun em rl => rfl⟩
  by_cases h1 : isMongoId id = true
  · by_cases h2 : (body.password).isSome = true
    · cases hv : validRole [Roles.USER] payload with
      | error e => left; simp [putUserRoute, putUserHandler, h1, h2, hv]
      | ok u =>
        cases hm : modifyAUserById id (putUserUpdate body) with
        | ok m => right; simp [putUserRoute, putUserHandler, h1, h2, hv, hm]
        | error e => right; simp [putUserRoute, putUserHandler, h1, h2, hv, hm]
    · have h2' : body.password.isSome = false := by simpa using h2
      left; simp [putUserRoute, h1, h2']
  · have h1' : isMongoId id = false := by simpa using h1
    left; simp [putUserRoute, h1']

/-- Witness for C10: a body carrying an email and an ADMIN role field
yields the same route behaviour as the same body without them. -/
theorem C10_putUser_frame_witness :
    putUserRoute "aaaaaaaaaaaaaaaaaaaaaaaa"
        { firstName := some "A", lastName := some "B", email := some "x@y.z",
          password := some "secret123", phone := none, role := some "ADMIN" }
        { role := "USER" } (fun _ _ => (.ok () : Except Err Unit))
      = putUserRoute "aaaaaaaaaaaaaaaaaaaaaaaa"
        { firstName := some "A", lastName := some "B", email := none,
          password := some "secret123", phone := none, role := none }
        { role := "USER" } (fun _ _ => (.ok () : Except Err Unit)) :=
  (C10_putUser_frame "aaaaaaaaaaaaaaaaaaaaaaaa"
      { firstName := some "A", lastName := some "B", email := none,
        password := some "secret123", phone := none, role := none }
      { role := "USER" } (fun _ _ => (.ok () : Except Err Unit))).2.2
    (some "x@y.z") (some "ADMIN")

/-- A concrete POST / request body that passes every field validation of
the route's middleware chain. -/
def samplePostBody : PostUserBody :=
  { firstName := some "Ana", lastName := some "Lopez",
    email := some "ana@example.com", password := some "longenough1",
    phone := some "5550000", role := none,
    address := [{ country := some "MX", state := some "Jalisco",
                  street := some "Main", city := some "Guadalajara",
                  roomNumber := none }] }

/-- A concrete typed exception thrown by the store at that request. -/
def samplePostErr : Err := .httpExc (IdNotFoundException "store failure")

/-- C1: the claim fails at the POST / create handler.  Unlike every
other user route handler, it has no try/catch, so when the
`service.addAUser` call rejects, the error escapes the async handler and
is never passed to the error channel `next`; evaluated here at a
concrete request body and a concrete thrown error. -/
theorem C1_postUser_error_escapes :
    (postUserHandler samplePostBody
        (fun _ => (.error samplePostErr : Except Err Unit))).1
      = .escaped samplePostErr ∧
    ((postUserHandler samplePostBody
        (fun _ => (.error samplePostErr : Except Err Unit))).1).isNextErr = false :=
  ⟨rfl, rfl⟩

end Mobilier
